import Mathlib

/-!
Shallow embedding of the command lifecycle of the email-triage agent
(models, summarizer mapping construction, summary persistence, command
parsing/transformation, reference resolution and the command executor),
together with theorems settling the specification claims.

External effects (the mail provider, the language-model call, the clock and
the uuid generator) are injected as explicit parameters or oracle functions;
the mailbox calls the executor performs are recorded in an explicit trace.
-/

set_option maxHeartbeats 1000000
set_option maxRecDepth 100000

namespace Agent

/-- JS truthiness fallback `x || d` for an optional string:
`undefined` and the empty string are both falsy. -/
def jsOrStr (x : Option String) (d : String) : String :=
  match x with
  | none => d
  | some s => if s = "" then d else s

/-- ASCII whitespace recognized by JS `String.prototype.trim` (the non-ASCII
whitespace code points never occur in this development and are omitted). -/
def isJsSpace (c : Char) : Bool :=
  c == ' ' || c == '\t' || c == '\n' || c == '\r' || c == '\x0b' || c == '\x0c'

/-- JS `s.trim()`: strip leading and trailing whitespace. -/
def jsTrim (s : String) : String :=
  String.mk (((s.data.dropWhile isJsSpace).reverse.dropWhile isJsSpace).reverse)

/-- JS `s.replace(/\n/g, "<br/>")`, as used when building a reply body. -/
def replaceNewlinesBr (s : String) : String :=
  String.mk (s.data.foldr
    (fun c acc => if c = '\n' then '<' :: 'b' :: 'r' :: '/' :: '>' :: acc else c :: acc) [])

/-- Decimal digits of `n`, least significant first, computed with structural
fuel so that it reduces inside the kernel; `natDigits_eq` ties it to
`Nat.digits`. -/
def natDigitsAux : Nat → Nat → List Nat
  | _, 0 => []
  | 0, _ + 1 => []
  | fuel + 1, n + 1 => ((n + 1) % 10) :: natDigitsAux fuel ((n + 1) / 10)

/-- Decimal digits of `n`, least significant first. -/
def natDigits (n : Nat) : List Nat := natDigitsAux n n

lemma natDigitsAux_eq (fuel : Nat) :
    ∀ n : Nat, n ≤ fuel → natDigitsAux fuel n = Nat.digits 10 n := by
  induction fuel with
  | zero =>
    intro n hn
    obtain rfl := Nat.le_zero.mp hn
    simp [natDigitsAux]
  | succ fuel ih =>
    intro n hn
    match n with
    | 0 => simp [natDigitsAux]
    | n + 1 =>
      have hdiv : (n + 1) / 10 ≤ fuel := by
        have h1 : (n + 1) / 10 < n + 1 := Nat.div_lt_self (Nat.succ_pos n) (by norm_num)
        omega
      rw [natDigitsAux, ih _ hdiv,
        Nat.digits_def' (by norm_num : (1 : Nat) < 10) (Nat.succ_pos n)]

lemma natDigits_eq (n : Nat) : natDigits n = Nat.digits 10 n :=
  natDigitsAux_eq n n le_rfl

/-- Decimal character rendering of a natural number, most significant first. -/
def natDigitChars (n : Nat) : List Char := ((natDigits n).map Nat.digitChar).reverse

/-- JS `String(n)` for a natural number. -/
def jsString (n : Nat) : String := if n = 0 then "0" else String.mk (natDigitChars n)

/-- JS `s.padStart(n, c)` for a single-character pad string: prepend copies of
`c` until the length reaches `n` (a string already at least that long is
returned unchanged). -/
def padStart (s : String) (n : Nat) (c : Char) : String :=
  String.mk (List.replicate (n - s.length) c) ++ s

lemma jsString_data (n : Nat) (h : n ≠ 0) : (jsString n).data = natDigitChars n := by
  simp [jsString, h]

lemma jsString_length (n : Nat) (h : n ≠ 0) :
    (jsString n).length = (natDigits n).length := by
  simp [String.length, jsString_data n h, natDigitChars]

lemma natDigits_length_eq_one {n : Nat} (h0 : n ≠ 0) (h : n < 10) :
    (natDigits n).length = 1 := by
  rw [natDigits_eq, Nat.digits_len 10 n (by norm_num) h0,
    Nat.log_eq_zero_iff.mpr (Or.inl h)]

lemma natDigits_length_eq_two {n : Nat} (h10 : 10 ≤ n) (h : n < 100) :
    (natDigits n).length = 2 := by
  have h0 : n ≠ 0 := by omega
  have hl : Nat.log 10 n = 1 :=
    Nat.log_eq_of_pow_le_of_lt_pow (by simpa using h10) (by norm_num; omega)
  rw [natDigits_eq, Nat.digits_len 10 n (by norm_num) h0, hl]

lemma natDigits_length_ge_three {n : Nat} (h : 100 ≤ n) :
    3 ≤ (natDigits n).length := by
  have h0 : n ≠ 0 := by omega
  rw [natDigits_eq, Nat.digits_len 10 n (by norm_num) h0]
  have : 2 ≤ Nat.log 10 n :=
    (Nat.pow_le_iff_le_log (by norm_num) h0).mp (by norm_num; omega)
  omega

/-- Leading-zero stripping, used to recover the digit string from its
zero-padded form. -/
def stripZeros : List Char → List Char
  | [] => []
  | c :: rest => if c = '0' then stripZeros rest else c :: rest

lemma stripZeros_replicate (k : Nat) (l : List Char) :
    stripZeros (List.replicate k '0' ++ l) = stripZeros l := by
  induction k with
  | zero => simp
  | succ k ih => simpa [List.replicate_succ, stripZeros] using ih

lemma stripZeros_of_head_ne (l : List Char)
    (h : ∀ c, l.head? = some c → c ≠ '0') : stripZeros l = l := by
  cases l with
  | nil => rfl
  | cons c rest =>
    have hc : c ≠ '0' := h c rfl
    simp [stripZeros, hc]

lemma natDigitChars_ne_nil {n : Nat} (h : n ≠ 0) : natDigitChars n ≠ [] := by
  have hne : Nat.digits 10 n ≠ [] := Nat.digits_ne_nil_iff_ne_zero.mpr h
  simp only [natDigitChars, natDigits_eq, ne_eq, List.reverse_eq_nil_iff,
    List.map_eq_nil_iff]
  exact hne

lemma natDigitChars_head_ne_zero {n : Nat} (h : n ≠ 0) :
    ∀ c, (natDigitChars n).head? = some c → c ≠ '0' := by
  intro c hc
  have hne : Nat.digits 10 n ≠ [] := Nat.digits_ne_nil_iff_ne_zero.mpr h
  have hlast : (Nat.digits 10 n).getLast hne ≠ 0 := Nat.getLast_digit_ne_zero 10 h
  have hmem : (Nat.digits 10 n).getLast hne ∈ Nat.digits 10 n := List.getLast_mem hne
  have hlt : (Nat.digits 10 n).getLast hne < 10 :=
    Nat.digits_lt_base (by norm_num) hmem
  have hhead : (natDigitChars n).head?
      = some (Nat.digitChar ((Nat.digits 10 n).getLast hne)) := by
    rw [natDigitChars, natDigits_eq, List.head?_reverse, List.getLast?_map,
      List.getLast?_eq_getLast _ hne]
    rfl
  rw [hhead] at hc
  obtain rfl := Option.some.inj hc
  have key : ∀ d : Nat, d < 10 → d ≠ 0 → Nat.digitChar d ≠ '0' := by decide
  exact key _ hlt hlast

lemma natDigitChars_inj {m n : Nat}
    (h : natDigitChars m = natDigitChars n) : m = n := by
  have hrev := congrArg List.reverse h
  simp only [natDigitChars, List.reverse_reverse] at hrev
  have hd : ∀ a : Nat, a < 10 → ∀ b : Nat, b < 10 →
      Nat.digitChar a = Nat.digitChar b → a = b := by
    decide
  have hmapinj : ∀ (l1 l2 : List Nat), (∀ x ∈ l1, x < 10) → (∀ x ∈ l2, x < 10) →
      l1.map Nat.digitChar = l2.map Nat.digitChar → l1 = l2 := by
    intro l1
    induction l1 with
    | nil =>
      intro l2 _ _ hmap
      cases l2 with
      | nil => rfl
      | cons b t2 => simp at hmap
    | cons a t ih =>
      intro l2 h1 h2 hmap
      cases l2 with
      | nil => simp at hmap
      | cons b t2 =>
        simp only [List.map_cons, List.cons.injEq] at hmap
        have hab : a = b :=
          hd a (h1 a (List.mem_cons_self a t)) b (h2 b (List.mem_cons_self b t2)) hmap.1
        have ht : t = t2 :=
          ih t2 (fun x hx => h1 x (List.mem_cons_of_mem a hx))
            (fun x hx => h2 x (List.mem_cons_of_mem b hx)) hmap.2
        rw [hab, ht]
  have hdig : natDigits m = natDigits n := by
    refine hmapinj _ _ ?_ ?_ hrev <;>
      · intro x hx
        rw [natDigits_eq] at hx
        exact Nat.digits_lt_base (by norm_num) hx
  rw [natDigits_eq, natDigits_eq] at hdig
  exact Nat.digits_inj_iff.mp hdig

/-- src/models/Email.ts, `generateReferenceId`: the human-facing reference
token assigned to the message at 0-based batch position `index`. -/
def generateReferenceId (index : Nat) : String :=
  "EMAIL-" ++ padStart (jsString (index + 1)) 3 '0'

/-- Spec-side description of the reference-token format, following the words
of the spec: the literal `EMAIL-` followed by the 1-based index zero-padded
to 3 digits. Stated by explicit case analysis on the number of decimal digits
so it can be compared with the source-side `generateReferenceId`. -/
def specReferenceToken (i : Nat) : String :=
  if i + 1 < 10 then "EMAIL-00" ++ jsString (i + 1)
  else if i + 1 < 100 then "EMAIL-0" ++ jsString (i + 1)
  else "EMAIL-" ++ jsString (i + 1)

lemma string_mk_nil_append (s : String) : String.mk [] ++ s = s := by
  cases s
  rfl

lemma generateReferenceId_eq_spec (i : Nat) :
    generateReferenceId i = specReferenceToken i := by
  have h0 : i + 1 ≠ 0 := Nat.succ_ne_zero i
  by_cases hA : i + 1 < 10
  · have hlen : (jsString (i + 1)).length = 1 := by
      rw [jsString_length _ h0, natDigits_length_eq_one h0 hA]
    rw [generateReferenceId, specReferenceToken, if_pos hA, padStart, hlen,
      ← String.append_assoc]
    congr 1
  · by_cases hB : i + 1 < 100
    · have hlen : (jsString (i + 1)).length = 2 := by
        rw [jsString_length _ h0, natDigits_length_eq_two (by omega) hB]
      rw [generateReferenceId, specReferenceToken, if_neg hA, if_pos hB,
        padStart, hlen, ← String.append_assoc]
      congr 1
    · have hlen : 3 ≤ (jsString (i + 1)).length := by
        rw [jsString_length _ h0]
        exact natDigits_length_ge_three (by omega)
      have hz : 3 - (jsString (i + 1)).length = 0 := by omega
      rw [generateReferenceId, specReferenceToken, if_neg hA, if_neg hB,
        padStart, hz]
      rw [List.replicate_zero, string_mk_nil_append]

/-- Reference tokens are pairwise distinct across batch positions. -/
lemma generateReferenceId_injective : Function.Injective generateReferenceId := by
  intro i j hij
  have h0i : i + 1 ≠ 0 := Nat.succ_ne_zero i
  have h0j : j + 1 ≠ 0 := Nat.succ_ne_zero j
  have hdata := congrArg String.data hij
  simp only [generateReferenceId, padStart, String.data_append,
    jsString_data _ h0i, jsString_data _ h0j] at hdata
  have hpad : List.replicate (3 - (jsString (i + 1)).length) '0' ++ natDigitChars (i + 1)
      = List.replicate (3 - (jsString (j + 1)).length) '0' ++ natDigitChars (j + 1) :=
    List.append_cancel_left hdata
  have hstrip := congrArg stripZeros hpad
  rw [stripZeros_replicate, stripZeros_replicate,
    stripZeros_of_head_ne _ (natDigitChars_head_ne_zero h0i),
    stripZeros_of_head_ne _ (natDigitChars_head_ne_zero h0j)] at hstrip
  have := natDigitChars_inj hstrip
  omega

/-- JS `n.toString()` for a (possibly negative) integer. -/
def intString (i : Int) : String :=
  if i < 0 then "-" ++ jsString (-i).toNat else jsString i.toNat

/-- Proleptic-Gregorian civil date (year, month, day) from a count of days
since 1970-01-01. -/
def civilFromDays (z0 : Int) : Int × Int × Int :=
  let z := z0 + 719468
  let era := Int.fdiv z 146097
  let doe := z - era * 146097
  let yoe := Int.fdiv (doe - Int.fdiv doe 1460 + Int.fdiv doe 36524 - Int.fdiv doe 146096) 365
  let y := yoe + era * 400
  let doy := doe - (365 * yoe + Int.fdiv yoe 4 - Int.fdiv yoe 100)
  let mp := Int.fdiv (5 * doy + 2) 153
  let d := doy - Int.fdiv (153 * mp + 2) 5 + 1
  let m := mp + (if mp < 10 then 3 else -9)
  (if m ≤ 2 then y + 1 else y, m, d)

/-- JS `Date.prototype.toISOString` on an epoch-milliseconds timestamp
(years in 0..9999, the range this system ever handles). A JS `Date` value is
modeled throughout by its epoch-milliseconds timestamp. -/
def toISOString (millis : Int) : String :=
  let days := Int.fdiv millis 86400000
  let msOfDay := (millis - days * 86400000).toNat
  let ymd := civilFromDays days
  padStart (jsString ymd.1.toNat) 4 '0' ++ "-" ++
    padStart (jsString ymd.2.1.toNat) 2 '0' ++ "-" ++
    padStart (jsString ymd.2.2.toNat) 2 '0' ++ "T" ++
    padStart (jsString (msOfDay / 3600000)) 2 '0' ++ ":" ++
    padStart (jsString (msOfDay / 60000 % 60)) 2 '0' ++ ":" ++
    padStart (jsString (msOfDay / 1000 % 60)) 2 '0' ++ "." ++
    padStart (jsString (msOfDay % 1000)) 3 '0' ++ "Z"

/-- src/models/Email.ts `EmailAddress`. -/
structure EmailAddress where
  name : String
  address : String
deriving DecidableEq

/-- src/models/Email.ts `Attachment`. -/
structure Attachment where
  filename : String
  mimeType : String
  size : Nat
deriving DecidableEq

/-- Body of an email: `{ plain: string; html?: string }`. -/
structure EmailBody where
  plain : String
  html : Option String
deriving DecidableEq

/-- src/models/Email.ts `Email` (a normalized message). The source fields
`from` and `to` are modeled as `fromAddr` and `toAddrs` because both are
reserved words in Lean; `date` is a JS `Date`, modeled by its
epoch-milliseconds timestamp. -/
structure Email where
  id : String
  threadId : String
  referenceId : String
  fromAddr : EmailAddress
  toAddrs : List EmailAddress
  cc : Option (List EmailAddress)
  subject : String
  snippet : String
  body : EmailBody
  date : Int
  labels : List String
  attachments : List Attachment
  isUnread : Bool
deriving DecidableEq

/-- src/models/Command.ts: the closed command-variant set. Each variant's
extra fields are carried in the kind (the source expresses the same thing as
a discriminated TypeScript union on `type`). -/
inductive CommandKind where
  | reply (content : String)
  | forward (forwardTo : String) (note : Option String)
  | archive
  | delete
  | mark_read
  | mark_unread
  | star
  | unstar
  | label (labelName : String)
deriving DecidableEq

/-- src/models/Command.ts `BaseCommand` payload shared by all variants. -/
structure Command where
  kind : CommandKind
  targetRef : String
  targetGmailId : Option String
deriving DecidableEq

/-- src/models/Command.ts `CommandResult`. -/
structure CommandResult where
  command : Command
  success : Bool
  error : Option String
  details : Option String
deriving DecidableEq

/-- src/models/Command.ts `commandTypeToLabel`. -/
def commandTypeToLabel (k : CommandKind) : String :=
  match k with
  | .reply _ => "Replied to"
  | .forward _ _ => "Forwarded"
  | .archive => "Archived"
  | .delete => "Deleted"
  | .mark_read => "Marked as read"
  | .mark_unread => "Marked as unread"
  | .star => "Starred"
  | .unstar => "Unstarred"
  | .label _ => "Labeled"

/-- src/services/ai/CommandParser.ts `ParsedCommand`: the loosely-typed
per-command record in the model's JSON response. `type` is an arbitrary
string at runtime. -/
structure ParsedCommand where
  type : String
  targetRef : String
  content : Option String
  forwardTo : Option String
  note : Option String
  labelName : Option String
deriving DecidableEq

/-- src/services/ai/CommandParser.ts `ParseResponse`. -/
structure ParseResponse where
  commands : List ParsedCommand
  unrecognized : List String
deriving DecidableEq

/-- src/models/Summary.ts `Priority`. -/
inductive Priority where
  | high
  | medium
  | low
deriving DecidableEq

/-- src/models/Summary.ts `ActionItem`. -/
structure ActionItem where
  referenceId : String
  priority : Priority
  description : String
  suggestedAction : String
  fromEmail : String
  subject : String
deriving DecidableEq

/-- src/models/Summary.ts `InformationalItem`. -/
structure InformationalItem where
  referenceId : String
  description : String
  fromEmail : String
deriving DecidableEq

/-- src/models/Summary.ts `Summary`. The `emailMappings` JS `Map` is modeled
as an association list in insertion order (a JS `Map` never holds two entries
with the same key); `Date` fields are epoch-milliseconds timestamps. -/
structure Summary where
  id : String
  generatedAt : Int
  periodStart : Int
  periodEnd : Int
  totalEmails : Nat
  unreadCount : Nat
  executiveSummary : String
  actionItems : List ActionItem
  informational : List InformationalItem
  emailMappings : List (String × String)
deriving DecidableEq

/-- src/models/Summary.ts `StoredSummary`. The `emailMappings` JS object is
modeled as an association list in property insertion order; the optional
`threadId`/`messageId` properties are `Option`s (absent = `none`). -/
structure StoredSummary where
  id : String
  generatedAt : String
  emailMappings : List (String × String)
  threadId : Option String
  messageId : Option String
deriving DecidableEq

/-- Result shape of src/models/Summary.ts `loadStoredSummary`. -/
structure LoadedSummary where
  emailMappings : List (String × String)
  threadId : Option String
  messageId : Option String
deriving DecidableEq

/-- Provider message stub `gmail_v1.Schema$Message` as consumed by the
reply-intake loop: only the optional `id` is ever read. -/
structure GMessage where
  id : Option String
deriving DecidableEq

/-- JS `map.has(k)` / object key-membership on the association-list model. -/
def mapHasKey (m : List (String × String)) (k : String) : Bool :=
  m.any (fun p => p.1 == k)

/-- JS `map.set(k, v)` / object property assignment: replace in place when
the key exists, append otherwise. -/
def mapSet (m : List (String × String)) (k v : String) : List (String × String) :=
  if mapHasKey m k then m.map (fun p => if p.1 == k then (k, v) else p)
  else m ++ [(k, v)]

/-- JS `map.get(k)`. -/
def mapGet (m : List (String × String)) (k : String) : Option String :=
  (m.find? (fun p => p.1 == k)).map (fun p => p.2)

/-- Building a JS `Map`/object by inserting a list of entries in order:
`Object.fromEntries(entries)` and `new Map(entries)` both do exactly this. -/
def insertEntries (l : List (String × String)) : List (String × String) :=
  l.foldl (fun acc p => mapSet acc p.1 p.2) []

/-- Shape of the model's JSON summary response (src/services/ai/EmailSummarizer.ts
`SummaryResponse`, action-item half). -/
structure ResponseActionItem where
  referenceId : String
  priority : Priority
  description : String
  suggestedAction : String
deriving DecidableEq

/-- src/services/ai/EmailSummarizer.ts `SummaryResponse`, informational half. -/
structure ResponseInfoItem where
  referenceId : String
  description : String
deriving DecidableEq

/-- src/services/ai/EmailSummarizer.ts `SummaryResponse`. -/
structure SummaryResponse where
  executiveSummary : String
  actionItems : List ResponseActionItem
  informational : List ResponseInfoItem
deriving DecidableEq

/-- JS `Math.min(...emails.map(e => e.date.getTime()))` over a batch. The
source produces `Infinity` (an invalid date) on an empty batch; that case is
unreachable because `summarize` routes the empty batch to
`createEmptySummary`, and the placeholder value 0 is never used. -/
def minDate : List Int → Int
  | [] => 0
  | d :: ds => ds.foldl min d

/-- src/services/ai/EmailSummarizer.ts `EmailSummarizer.createSummary`. The
`uuidv4()` and `new Date()` effects are injected as the `uid` and `now`
arguments. -/
def createSummary (emails : List Email) (response : SummaryResponse)
    (uid : String) (now : Int) : Summary :=
  let emailMappings := emails.foldl (fun m e => mapSet m e.referenceId e.id) []
  let actionItems := response.actionItems.map (fun item =>
    let email := emails.find? (fun e => e.referenceId == item.referenceId)
    { referenceId := item.referenceId
      priority := item.priority
      description := item.description
      suggestedAction := item.suggestedAction
      fromEmail := jsOrStr (email.map (fun e => e.fromAddr.address)) ""
      subject := jsOrStr (email.map (fun e => e.subject)) "" })
  let informational := response.informational.map (fun item =>
    let email := emails.find? (fun e => e.referenceId == item.referenceId)
    { referenceId := item.referenceId
      description := item.description
      fromEmail := jsOrStr (email.map (fun e => e.fromAddr.address)) "" })
  { id := uid
    generatedAt := now
    periodStart := minDate (emails.map (fun e => e.date))
    periodEnd := now
    totalEmails := emails.length
    unreadCount := (emails.filter (fun e => e.isUnread)).length
    executiveSummary := response.executiveSummary
    actionItems := actionItems
    informational := informational
    emailMappings := emailMappings }

/-- src/services/ai/EmailSummarizer.ts `EmailSummarizer.createEmptySummary`. -/
def createEmptySummary (uid : String) (now : Int) : Summary :=
  { id := uid
    generatedAt := now
    periodStart := now
    periodEnd := now
    totalEmails := 0
    unreadCount := 0
    executiveSummary := "No new emails to summarize."
    actionItems := []
    informational := []
    emailMappings := [] }

/-- src/services/ai/EmailSummarizer.ts `EmailSummarizer.summarize`: the
language-model JSON call is injected as the `respO` oracle result (an
extraction failure there throws, modeled as `Except.error`). -/
def summarize (emails : List Email) (respO : Except String SummaryResponse)
    (uid : String) (now : Int) : Except String Summary :=
  if emails.length = 0 then Except.ok (createEmptySummary uid now)
  else respO.map (fun response => createSummary emails response uid now)

/-- src/models/Summary.ts `summaryToStorable`. `Object.fromEntries(map)` is
`insertEntries`; the conditional `threadId`/`messageId` assignments are the
`Option` pass-through. -/
def summaryToStorable (summary : Summary) (threadId messageId : Option String) :
    StoredSummary :=
  { id := summary.id
    generatedAt := toISOString summary.generatedAt
    emailMappings := insertEntries summary.emailMappings
    threadId := threadId
    messageId := messageId }

/-- src/models/Summary.ts `loadStoredSummary`. `new Map(Object.entries(obj))`
re-inserts the stored entries in order, which is `insertEntries`. -/
def loadStoredSummary (stored : StoredSummary) : LoadedSummary :=
  { emailMappings := insertEntries stored.emailMappings
    threadId := stored.threadId
    messageId := stored.messageId }

/-- Decidable equality for `Except`, needed so concrete runs can be checked
with `decide`. -/
def exceptDecEq {ε α : Type} [DecidableEq ε] [DecidableEq α] :
    DecidableEq (Except ε α) := fun a b =>
  match a, b with
  | .error x, .error y =>
    if h : x = y then isTrue (by rw [h])
    else isFalse (by intro hc; cases hc; exact h rfl)
  | .error _, .ok _ => isFalse (by intro hc; cases hc)
  | .ok _, .error _ => isFalse (by intro hc; cases hc)
  | .ok x, .ok y =>
    if h : x = y then isTrue (by rw [h])
    else isFalse (by intro hc; cases hc; exact h rfl)

instance {ε α : Type} [DecidableEq ε] [DecidableEq α] : DecidableEq (Except ε α) :=
  exceptDecEq

/-- src/services/ai/CommandParser.ts `transformCommands`, map callback: turn
one loosely-typed parsed command into a typed variant. Missing `content`,
`forwardTo` and `labelName` default to the empty string via JS `||`; `note`
is copied through unchanged; an unrecognized `type` throws. -/
def transformCommand (p : ParsedCommand) : Except String Command :=
  match p.type with
  | "reply" => Except.ok
      { kind := .reply (jsOrStr p.content ""), targetRef := p.targetRef, targetGmailId := none }
  | "forward" => Except.ok
      { kind := .forward (jsOrStr p.forwardTo "") p.note, targetRef := p.targetRef, targetGmailId := none }
  | "archive" => Except.ok { kind := .archive, targetRef := p.targetRef, targetGmailId := none }
  | "delete" => Except.ok { kind := .delete, targetRef := p.targetRef, targetGmailId := none }
  | "mark_read" => Except.ok { kind := .mark_read, targetRef := p.targetRef, targetGmailId := none }
  | "mark_unread" => Except.ok { kind := .mark_unread, targetRef := p.targetRef, targetGmailId := none }
  | "star" => Except.ok { kind := .star, targetRef := p.targetRef, targetGmailId := none }
  | "unstar" => Except.ok { kind := .unstar, targetRef := p.targetRef, targetGmailId := none }
  | "label" => Except.ok
      { kind := .label (jsOrStr p.labelName ""), targetRef := p.targetRef, targetGmailId := none }
  | other => Except.error ("Unknown command type: " ++ other)

/-- src/services/ai/CommandParser.ts `transformCommands`: `parsed.map(...)`
with a throwing callback — the commands are transformed left to right and the
first throw aborts the whole transformation. -/
def transformCommands (parsed : List ParsedCommand) : Except String (List Command) :=
  match parsed with
  | [] => Except.ok []
  | p :: rest =>
    match transformCommand p with
    | .error e => Except.error e
    | .ok c =>
      match transformCommands rest with
      | .error e => Except.error e
      | .ok cs => Except.ok (c :: cs)

/-- src/services/ai/CommandParser.ts `CommandParser.parseCommands`. The
language-model JSON-extraction call (`ClaudeClient.parseJson` applied to the
built prompt; any function of the prompt is equally a function of the raw
user input) is injected as the `jsonO` oracle; it throws
`"Failed to parse JSON from Claude response"` on extraction failure. -/
def parseCommands (jsonO : String → Except String ParseResponse)
    (userInput : String) : Except String (List Command × List String) :=
  match jsonO userInput with
  | .error e => Except.error e
  | .ok response =>
    match transformCommands response.commands with
    | .error e => Except.error e
    | .ok commands => Except.ok (commands, response.unrecognized)

/-- The mailbox calls the executor can perform against the Mailbox Gateway,
recorded with the arguments the source passes (src/services/gmail/GmailClient.ts
method surface as used by CommandHandler). -/
inductive Call where
  | getEmail (id : String)
  | replyToEmail (id threadId toAddr subject htmlBody : String)
  | sendEmail (toAddr subject htmlBody : String)
  | archiveEmail (id : String)
  | deleteEmail (id : String)
  | markAsRead (id : String)
  | markAsUnread (id : String)
  | starEmail (id : String)
  | unstarEmail (id : String)
  | addLabel (id labelName : String)
deriving DecidableEq

/-- Behavior oracle for the Mailbox Gateway: the outcome of each provider
call the executor can make (an `Except.error` models the call throwing an
`Error` with that message). -/
structure Gateway where
  getEmail : String → Except String Email
  replyToEmail : String → String → String → String → String → Except String String
  sendEmail : String → String → String → Except String String
  archiveEmail : String → Except String Unit
  deleteEmail : String → Except String Unit
  markAsRead : String → Except String Unit
  markAsUnread : String → Except String Unit
  starEmail : String → Except String Unit
  unstarEmail : String → Except String Unit
  addLabel : String → String → Except String Unit

/-- The forwarded-message HTML body template literal from
src/handlers/CommandHandler.ts (`forward` case), whitespace included. -/
def forwardBodyHtml (original : Email) (note : Option String) : String :=
  "\n            <p>" ++ jsOrStr note "Forwarded message:" ++
    "</p>\n            <hr/>\n            <p><strong>From:</strong> " ++
    original.fromAddr.address ++
    "<br/>\n            <strong>Subject:</strong> " ++ original.subject ++
    "<br/>\n            <strong>Date:</strong> " ++ toISOString original.date ++
    "</p>\n            <div>" ++ jsOrStr original.body.html original.body.plain ++
    "</div>\n          "

/-- The `try { switch (command.type) ... }` body of
`CommandHandler.executeCommand`: the Gateway calls one command kind performs,
with the thrown-or-ok outcome and the trace of calls attempted. -/
def runCommandSwitch (gw : Gateway) (gmailId : String) (command : Command) :
    Except String Unit × List Call :=
  match command.kind with
  | .reply content =>
    match gw.getEmail gmailId with
    | .error e => (Except.error e, [Call.getEmail gmailId])
    | .ok original =>
      let html := "<p>" ++ replaceNewlinesBr content ++ "</p>"
      match gw.replyToEmail gmailId original.threadId original.fromAddr.address
          original.subject html with
      | .error e => (Except.error e,
          [Call.getEmail gmailId,
           Call.replyToEmail gmailId original.threadId original.fromAddr.address
             original.subject html])
      | .ok _ => (Except.ok (),
          [Call.getEmail gmailId,
           Call.replyToEmail gmailId original.threadId original.fromAddr.address
             original.subject html])
  | .forward forwardTo note =>
    match gw.getEmail gmailId with
    | .error e => (Except.error e, [Call.getEmail gmailId])
    | .ok original =>
      let body := forwardBodyHtml original note
      let subject := "Fwd: " ++ original.subject
      match gw.sendEmail forwardTo subject body with
      | .error e => (Except.error e,
          [Call.getEmail gmailId, Call.sendEmail forwardTo subject body])
      | .ok _ => (Except.ok (),
          [Call.getEmail gmailId, Call.sendEmail forwardTo subject body])
  | .archive => (gw.archiveEmail gmailId, [Call.archiveEmail gmailId])
  | .delete => (gw.deleteEmail gmailId, [Call.deleteEmail gmailId])
  | .mark_read => (gw.markAsRead gmailId, [Call.markAsRead gmailId])
  | .mark_unread => (gw.markAsUnread gmailId, [Call.markAsUnread gmailId])
  | .star => (gw.starEmail gmailId, [Call.starEmail gmailId])
  | .unstar => (gw.unstarEmail gmailId, [Call.unstarEmail gmailId])
  | .label labelName => (gw.addLabel gmailId labelName, [Call.addLabel gmailId labelName])

/-- src/handlers/CommandHandler.ts `executeCommand`: the unresolved-reference
check (`if (!gmailId)`, which also fires on an empty-string id), then the
dry-run check, then the guarded switch with its per-command catch. Returns
the Command Result and the trace of Gateway calls made. -/
def executeCommand (dryRun : Bool) (gw : Gateway) (command : Command) :
    CommandResult × List Call :=
  match command.targetGmailId with
  | none =>
    ({ command := command, success := false,
       error := some ("Could not resolve " ++ command.targetRef ++ " to a Gmail message ID"),
       details := none }, [])
  | some gmailId =>
    if gmailId = "" then
      ({ command := command, success := false,
         error := some ("Could not resolve " ++ command.targetRef ++ " to a Gmail message ID"),
         details := none }, [])
    else if dryRun then
      ({ command := command, success := true, error := none,
         details := some "Dry run - no action taken" }, [])
    else
      let run := runCommandSwitch gw gmailId command
      (match run.1 with
       | .ok _ => { command := command, success := true, error := none, details := none }
       | .error msg =>
         { command := command, success := false, error := some msg, details := none },
       run.2)

/-- src/handlers/CommandHandler.ts `executeCommands`: sequential loop pushing
one result per command, concatenating the call traces. -/
def executeCommands (dryRun : Bool) (gw : Gateway) :
    List Command → List CommandResult × List Call
  | [] => ([], [])
  | c :: rest =>
    let r := executeCommand dryRun gw c
    let rs := executeCommands dryRun gw rest
    (r.1 :: rs.1, r.2 ++ rs.2)

/-- One `<li>` of the confirmation email's success list. -/
def successItemHtml (r : CommandResult) : String :=
  "<li>✅ " ++ commandTypeToLabel r.command.kind ++ " " ++ r.command.targetRef ++ "</li>"

/-- One `<li>` of the confirmation email's failure list (the JS template
renders a missing error as the string `undefined`). -/
def failedItemHtml (r : CommandResult) : String :=
  "<li>❌ " ++ commandTypeToLabel r.command.kind ++ " " ++ r.command.targetRef ++ ": " ++
    (match r.error with | some e => e | none => "undefined") ++ "</li>"

/-- src/handlers/CommandHandler.ts `sendConfirmationEmail` HTML body; the
`formatDate(new Date())` effect is injected as `today`. -/
def confirmationHtmlBody (results : List CommandResult) (today : String) : String :=
  let successful := results.filter (fun r => r.success)
  let failed := results.filter (fun r => !r.success)
  let successHtml :=
    if successful.length > 0 then String.join (successful.map successItemHtml)
    else "<li>No successful actions</li>"
  let failedHtml :=
    if failed.length > 0 then String.join (failed.map failedItemHtml) else ""
  "\n<!DOCTYPE html>\n<html>\n<head>\n  <meta charset=\"utf-8\">\n</head>\n" ++
    "<body style=\"font-family: -apple-system, BlinkMacSystemFont, \x27Segoe UI\x27, Roboto, sans-serif; max-width: 600px; margin: 0 auto; padding: 20px;\">\n\n" ++
    "  <h1 style=\"color: #333;\">✅ Agent Actions Completed</h1>\n\n" ++
    "  <p style=\"color: #666;\">" ++ today ++ "</p>\n\n" ++
    "  <h2 style=\"color: #28a745;\">Completed Actions (" ++
    jsString successful.length ++ ")</h2>\n  <ul>" ++ successHtml ++ "</ul>\n\n  " ++
    (if failed.length > 0 then
      "\n  <h2 style=\"color: #dc3545;\">Failed Actions (" ++ jsString failed.length ++
        ")</h2>\n  <ul>" ++ failedHtml ++ "</ul>\n  "
     else "") ++
    "\n\n  <p style=\"font-size: 12px; color: #999; margin-top: 30px;\">\n    Generated by Email Agent\n  </p>\n\n</body>\n</html>"

/-- The `for (const reply of replies)` loop of
`CommandHandler.processReplyCommands`: skip replies without a (truthy) id or
with only-whitespace content, parse the rest, resolve each command's token
through the mapping, execute, and accumulate results. An error thrown by the
parse (`parseCommands`) propagates, aborting the remaining iterations. -/
def processRepliesLoop (dryRun : Bool) (gw : Gateway)
    (mappings : List (String × String)) (contentOf : String → String)
    (jsonO : String → Except String ParseResponse) :
    List GMessage → List CommandResult → Except String (List CommandResult)
  | [], acc => Except.ok acc
  | reply :: rest, acc =>
    match reply.id with
    | none => processRepliesLoop dryRun gw mappings contentOf jsonO rest acc
    | some rid =>
      if rid = "" then processRepliesLoop dryRun gw mappings contentOf jsonO rest acc
      else
        let content := contentOf rid
        if jsTrim content = "" then
          processRepliesLoop dryRun gw mappings contentOf jsonO rest acc
        else
          match parseCommands jsonO content with
          | .error e => Except.error e
          | .ok parsed =>
            let resolvedCommands := parsed.1.map (fun cmd =>
              { cmd with targetGmailId := mapGet mappings cmd.targetRef })
            let results := (executeCommands dryRun gw resolvedCommands).1
            processRepliesLoop dryRun gw mappings contentOf jsonO rest (acc ++ results)

/-- src/handlers/CommandHandler.ts `processReplyCommands`. The externally
produced inputs are injected: `stored` is the loaded latest Stored Summary
(`none` when no summary file exists), `replies` is the
`searchReplies` result, `contentOf` the `getMessageContent` oracle, `jsonO`
the language-model JSON-extraction oracle, and `userEmail`/`today` the
configuration and clock values the confirmation email uses. -/
def processReplyCommands (dryRun : Bool) (gw : Gateway) (userEmail today : String)
    (stored : Option StoredSummary) (replies : List GMessage)
    (contentOf : String → String) (jsonO : String → Except String ParseResponse) :
    Except String (List CommandResult) :=
  match stored with
  | none => Except.ok []
  | some storedSummary =>
    let mappings := (loadStoredSummary storedSummary).emailMappings
    if replies.length = 0 then Except.ok []
    else
      match processRepliesLoop dryRun gw mappings contentOf jsonO replies [] with
      | .error e => Except.error e
      | .ok allResults =>
        if allResults.length > 0 && !dryRun then
          match gw.sendEmail userEmail ("Agent Actions Completed - " ++ today)
              (confirmationHtmlBody allResults today) with
          | .error e => Except.error e
          | .ok _ => Except.ok allResults
        else Except.ok allResults

/-- Modelled from the spec: the mail provider's `users.messages.list` call
returns the mailbox messages matching the query, capped at `maxResults`
(the provider transport itself is an out-of-scope external collaborator;
`matching` stands for the full match set in mailbox order). -/
def usersMessagesList (matching : List GMessage) (maxResults : Nat) : List GMessage :=
  List.take maxResults matching

/-- src/services/gmail/GmailClient.ts `searchReplies` query string. -/
def searchRepliesQuery (subject : String) (afterMillis : Int) : String :=
  "in:sent subject:\"Re: " ++ subject ++ "\" after:" ++
    intString (Int.fdiv afterMillis 1000)

/-- src/services/gmail/GmailClient.ts `searchReplies`: list messages matching
the reply query with `maxResults: 10`. -/
def searchReplies (matching : List GMessage) : List GMessage :=
  usersMessagesList matching 10

/-- A stock original message used by concrete gateway fixtures. -/
def stockEmail : Email :=
  { id := "g1"
    threadId := "t1"
    referenceId := "EMAIL-001"
    fromAddr := { name := "", address := "alice@example.com" }
    toAddrs := []
    cc := none
    subject := "Hello"
    snippet := ""
    body := { plain := "hi there", html := none }
    date := 0
    labels := []
    attachments := []
    isUnread := true }

/-- A gateway on which every provider call succeeds. -/
def okGateway : Gateway :=
  { getEmail := fun _ => Except.ok stockEmail
    replyToEmail := fun _ _ _ _ _ => Except.ok "sent-reply"
    sendEmail := fun _ _ _ => Except.ok "sent-mail"
    archiveEmail := fun _ => Except.ok ()
    deleteEmail := fun _ => Except.ok ()
    markAsRead := fun _ => Except.ok ()
    markAsUnread := fun _ => Except.ok ()
    starEmail := fun _ => Except.ok ()
    unstarEmail := fun _ => Except.ok ()
    addLabel := fun _ _ => Except.ok () }

/-- C9 (confirmed): reference-token generation is a pure function of the
0-based batch position, and the token at position `i` is exactly `EMAIL-`
followed by `i + 1` zero-padded to 3 digits; in particular position 0 yields
`EMAIL-001`. -/
theorem referenceId_format :
    (∀ i : Nat, generateReferenceId i = specReferenceToken i) ∧
    generateReferenceId 0 = "EMAIL-001" :=
  ⟨generateReferenceId_eq_spec, by decide⟩

/-- C10 (confirmed): the reply search is capped at `maxResults: 10`, so a
single command-intake pass sees at most 10 candidate replies no matter how
many messages match in the mailbox. -/
theorem searchReplies_at_most_ten (matching : List GMessage) :
    (searchReplies matching).length ≤ 10 := by
  simp only [searchReplies, usersMessagesList, List.length_take]
  omega

/-- C6 (confirmed): a command whose reference token was not resolved to a
provider ID executes to a failed Command Result whose error message names the
missing token, with no Gateway call made (and no exception escaping: the
function is total). -/
theorem unresolved_reference_result (dryRun : Bool) (gw : Gateway) (cmd : Command)
    (h : cmd.targetGmailId = none) :
    executeCommand dryRun gw cmd =
      ({ command := cmd, success := false,
         error := some ("Could not resolve " ++ cmd.targetRef ++ " to a Gmail message ID"),
         details := none }, []) := by
  simp [executeCommand, h]

/-- Witness for C6 at a concrete star command with an unmapped token. -/
theorem unresolved_reference_result_witness :
    executeCommand false okGateway
        { kind := .star, targetRef := "EMAIL-042", targetGmailId := none } =
      ({ command := { kind := .star, targetRef := "EMAIL-042", targetGmailId := none },
         success := false,
         error := some "Could not resolve EMAIL-042 to a Gmail message ID",
         details := none }, []) :=
  (unresolved_reference_result false okGateway
    { kind := .star, targetRef := "EMAIL-042", targetGmailId := none } rfl).trans
    (by decide)

/-- C3 (counterexample): in dry-run mode, a command whose reference did not
resolve yields success=false and no detail string — the claim that any
command, resolved or not, yields success=true with a detail fails. -/
theorem dry_run_unresolved_fails_cex :
    (executeCommand true okGateway
        { kind := .archive, targetRef := "EMAIL-009", targetGmailId := none }).1.success
      = false ∧
    (executeCommand true okGateway
        { kind := .archive, targetRef := "EMAIL-009", targetGmailId := none }).1.details
      = none := by
  constructor <;> decide

/-- C3 (corrected): dry-run never performs a Gateway call for any command,
and every resolved command produces success=true with the dry-run detail
string; an unresolved command still fails with the resolution error, because
the resolution check precedes the dry-run check. -/
theorem dry_run_behavior (gw : Gateway) (cmd : Command) :
    (∀ gid, cmd.targetGmailId = some gid → gid ≠ "" →
      executeCommand true gw cmd =
        ({ command := cmd, success := true, error := none,
           details := some "Dry run - no action taken" }, [])) ∧
    (executeCommand true gw cmd).2 = [] := by
  constructor
  · intro gid hg hne
    simp [executeCommand, hg, hne]
  · cases h : cmd.targetGmailId with
    | none => simp [executeCommand, h]
    | some gid => by_cases hne : gid = "" <;> simp [executeCommand, h, hne]

/-- Witness for C3 (corrected) at a concrete resolved delete command. -/
theorem dry_run_behavior_witness :
    executeCommand true okGateway
        { kind := .delete, targetRef := "EMAIL-002", targetGmailId := some "g2" } =
      ({ command := { kind := .delete, targetRef := "EMAIL-002", targetGmailId := some "g2" },
         success := true, error := none,
         details := some "Dry run - no action taken" }, []) :=
  (dry_run_behavior okGateway
    { kind := .delete, targetRef := "EMAIL-002", targetGmailId := some "g2" }).1
    "g2" rfl (by decide)

/-- C2 (corrected): forwarding always composes the outgoing subject as
`"Fwd: " ++` the original subject, with no already-prefixed check — also when
the original subject already starts with `Fwd:`. -/
theorem forward_subject_always_fwd (gw : Gateway) (cmd : Command)
    (forwardTo : String) (note : Option String) (gid : String) (orig : Email)
    (hk : cmd.kind = .forward forwardTo note) (hg : cmd.targetGmailId = some gid)
    (hne : gid ≠ "") (hget : gw.getEmail gid = Except.ok orig) :
    (executeCommand false gw cmd).2 =
      [Call.getEmail gid,
       Call.sendEmail forwardTo ("Fwd: " ++ orig.subject) (forwardBodyHtml orig note)] := by
  rcases hs : gw.sendEmail forwardTo ("Fwd: " ++ orig.subject) (forwardBodyHtml orig note)
      with e | v <;>
    simp [executeCommand, hg, hne, runCommandSwitch, hk, hget, hs]

/-- An original message whose subject already starts with `Fwd:`. -/
def fwdOriginal : Email :=
  { stockEmail with subject := "Fwd: Quarterly report" }

/-- A getEmail fixture returning `fwdOriginal`. -/
def fwdGateway : Gateway :=
  { okGateway with getEmail := fun _ => Except.ok fwdOriginal }

/-- C2 (counterexample): forwarding a message whose subject is already
`Fwd: Quarterly report` sends subject `Fwd: Fwd: Quarterly report`, not the
unchanged subject the claim requires. -/
theorem forward_subject_double_fwd_cex :
    (executeCommand false fwdGateway
        { kind := .forward "dest@example.com" none, targetRef := "EMAIL-002",
          targetGmailId := some "g7" }).2 =
      [Call.getEmail "g7",
       Call.sendEmail "dest@example.com" "Fwd: Fwd: Quarterly report"
         (forwardBodyHtml fwdOriginal none)] ∧
    ("Fwd: Fwd: Quarterly report" : String) ≠ "Fwd: Quarterly report" := by
  constructor <;> decide

/-- Witness for C2 (corrected) at a concrete forward command whose original
subject is unprefixed. -/
theorem forward_subject_always_fwd_witness :
    (executeCommand false okGateway
        { kind := .forward "bob@example.com" (some "see below"), targetRef := "EMAIL-001",
          targetGmailId := some "g1" }).2 =
      [Call.getEmail "g1",
       Call.sendEmail "bob@example.com" ("Fwd: " ++ stockEmail.subject)
         (forwardBodyHtml stockEmail (some "see below"))] :=
  forward_subject_always_fwd okGateway
    { kind := .forward "bob@example.com" (some "see below"), targetRef := "EMAIL-001",
      targetGmailId := some "g1" }
    "bob@example.com" (some "see below") "g1" stockEmail rfl rfl (by decide) rfl

lemma executeCommands_results (dryRun : Bool) (gw : Gateway) (cmds : List Command) :
    (executeCommands dryRun gw cmds).1 =
      cmds.map (fun c => (executeCommand dryRun gw c).1) := by
  induction cmds with
  | nil => rfl
  | cons c rest ih => simp [executeCommands, ih]

lemma executeCommand_switch_error (gw : Gateway) (cmd : Command) (gid e : String)
    (hg : cmd.targetGmailId = some gid) (hne : gid ≠ "")
    (hrun : (runCommandSwitch gw gid cmd).1 = Except.error e) :
    (executeCommand false gw cmd).1 =
      { command := cmd, success := false, error := some e, details := none } := by
  simp [executeCommand, hg, hne, hrun]

/-- C5 (confirmed): the Executor returns exactly one Command Result per
command, in order; each result is that command's own independent outcome; and
when the mailbox operation for command `j` throws, result `j` is
success=false carrying the thrown error's message text. -/
theorem executor_batch_isolation (dryRun : Bool) (gw : Gateway) (cmds : List Command) :
    (executeCommands dryRun gw cmds).1.length = cmds.length ∧
    (∀ j : Fin cmds.length,
      (executeCommands dryRun gw cmds).1.get? j.val =
        some (executeCommand dryRun gw (cmds.get j)).1) ∧
    (∀ j : Fin cmds.length, ∀ gid e : String,
      (cmds.get j).targetGmailId = some gid → gid ≠ "" → dryRun = false →
      (runCommandSwitch gw gid (cmds.get j)).1 = Except.error e →
      (executeCommands dryRun gw cmds).1.get? j.val =
        some { command := cmds.get j, success := false, error := some e,
               details := none }) := by
  refine ⟨?_, ?_, ?_⟩
  · rw [executeCommands_results]
    simp
  · intro j
    rw [executeCommands_results, List.get?_map, List.get?_eq_get j.isLt]
    rfl
  · intro j gid e hg hne hdry hrun
    subst hdry
    rw [executeCommands_results, List.get?_map, List.get?_eq_get j.isLt]
    exact congrArg some (executeCommand_switch_error gw (cmds.get j) gid e hg hne hrun)

/-- Fixture commands for the executor batch witness. -/
def cmdArchiveA : Command :=
  { kind := .archive, targetRef := "EMAIL-001", targetGmailId := some "g1" }

/-- Second fixture command, whose archive call will throw. -/
def cmdArchiveB : Command :=
  { kind := .archive, targetRef := "EMAIL-002", targetGmailId := some "g2" }

/-- Third fixture command, unresolved. -/
def cmdArchiveC : Command :=
  { kind := .archive, targetRef := "EMAIL-003", targetGmailId := none }

/-- Gateway on which archiving `g2` throws and everything else succeeds. -/
def failGateway : Gateway :=
  { okGateway with archiveEmail := fun gid =>
      if gid = "g2" then Except.error "network boom" else Except.ok () }

/-- Witness for C5: a three-command batch whose middle command's mailbox call
throws still yields three results, with result 1 failed carrying the thrown
message. -/
theorem executor_batch_isolation_witness :
    (executeCommands false failGateway [cmdArchiveA, cmdArchiveB, cmdArchiveC]).1.length = 3 ∧
    (executeCommands false failGateway [cmdArchiveA, cmdArchiveB, cmdArchiveC]).1.get? 1 =
      some { command := cmdArchiveB, success := false, error := some "network boom",
             details := none } := by
  have h := executor_batch_isolation false failGateway [cmdArchiveA, cmdArchiveB, cmdArchiveC]
  refine ⟨h.1.trans (by decide), ?_⟩
  exact h.2.2 ⟨1, by decide⟩ "g2" "network boom" (by decide) (by decide) rfl (by decide)

/-- The nine recognized command type strings. -/
def knownCommandTypes : List String :=
  ["reply", "forward", "archive", "delete", "mark_read", "mark_unread",
   "star", "unstar", "label"]

/-- Spec-side description of the per-command transformation, following the
amended claim: a known kind maps to its typed variant with `content`,
`forwardTo` and `labelName` defaulted to the empty string and `note` carried
through unchanged; an unrecognized type has no transform. -/
def specTransformOne (p : ParsedCommand) : Option Command :=
  if p.type = "reply" then
    some { kind := .reply (jsOrStr p.content ""), targetRef := p.targetRef,
           targetGmailId := none }
  else if p.type = "forward" then
    some { kind := .forward (jsOrStr p.forwardTo "") p.note, targetRef := p.targetRef,
           targetGmailId := none }
  else if p.type = "archive" then
    some { kind := .archive, targetRef := p.targetRef, targetGmailId := none }
  else if p.type = "delete" then
    some { kind := .delete, targetRef := p.targetRef, targetGmailId := none }
  else if p.type = "mark_read" then
    some { kind := .mark_read, targetRef := p.targetRef, targetGmailId := none }
  else if p.type = "mark_unread" then
    some { kind := .mark_unread, targetRef := p.targetRef, targetGmailId := none }
  else if p.type = "star" then
    some { kind := .star, targetRef := p.targetRef, targetGmailId := none }
  else if p.type = "unstar" then
    some { kind := .unstar, targetRef := p.targetRef, targetGmailId := none }
  else if p.type = "label" then
    some { kind := .label (jsOrStr p.labelName ""), targetRef := p.targetRef,
           targetGmailId := none }
  else none

lemma transformCommand_eq_spec (p : ParsedCommand) :
    transformCommand p =
      (match specTransformOne p with
       | some c => Except.ok c
       | none => Except.error ("Unknown command type: " ++ p.type)) := by
  unfold transformCommand specTransformOne
  split <;> simp_all

/-- C4 (corrected): transforming a list of model-returned parsed commands of
recognized kinds succeeds, with `content`, `forwardTo` and `labelName`
defaulted to the empty string when missing and `note` carried through
unchanged (absent stays absent); the first unrecognized `type` value throws
`Unknown command type`, aborting the whole transformation for that reply. -/
theorem transform_defaults_and_aborts :
    (∀ ps : List ParsedCommand, (∀ p ∈ ps, (specTransformOne p).isSome) →
      transformCommands ps = Except.ok (ps.filterMap specTransformOne)) ∧
    (∀ (ps1 : List ParsedCommand) (p : ParsedCommand) (ps2 : List ParsedCommand),
      specTransformOne p = none → (∀ q ∈ ps1, (specTransformOne q).isSome) →
      transformCommands (ps1 ++ p :: ps2) =
        Except.error ("Unknown command type: " ++ p.type)) := by
  constructor
  · intro ps h
    induction ps with
    | nil => rfl
    | cons p rest ih =>
      obtain ⟨c, hc⟩ := Option.isSome_iff_exists.mp (h p (List.mem_cons_self p rest))
      have hrest := ih (fun q hq => h q (List.mem_cons_of_mem _ hq))
      rw [transformCommands, transformCommand_eq_spec, hc, hrest]
      simp [List.filterMap_cons, hc]
  · intro ps1 p ps2 hnone hok
    induction ps1 with
    | nil =>
      simp only [List.nil_append]
      rw [transformCommands, transformCommand_eq_spec, hnone]
    | cons q rest ih =>
      obtain ⟨c, hc⟩ := Option.isSome_iff_exists.mp (hok q (List.mem_cons_self q rest))
      have hrec := ih (fun x hx => hok x (List.mem_cons_of_mem _ hx))
      rw [List.cons_append, transformCommands, transformCommand_eq_spec, hc, hrec]

/-- Witness for C4 (corrected): a reply command with no content transforms
with content defaulted to the empty string, and appending an unrecognized
command aborts the transformation with the contract-violation error. -/
theorem transform_defaults_and_aborts_witness :
    transformCommands
        [{ type := "reply", targetRef := "EMAIL-001", content := none,
           forwardTo := none, note := none, labelName := none }] =
      Except.ok [{ kind := .reply "", targetRef := "EMAIL-001", targetGmailId := none }] ∧
    transformCommands
        [{ type := "reply", targetRef := "EMAIL-001", content := none,
           forwardTo := none, note := none, labelName := none },
         { type := "snooze", targetRef := "EMAIL-002", content := none,
           forwardTo := none, note := none, labelName := none }] =
      Except.error "Unknown command type: snooze" := by
  constructor
  · exact (transform_defaults_and_aborts.1
      [{ type := "reply", targetRef := "EMAIL-001", content := none,
         forwardTo := none, note := none, labelName := none }] (by decide)).trans (by decide)
  · exact (transform_defaults_and_aborts.2
      [{ type := "reply", targetRef := "EMAIL-001", content := none,
         forwardTo := none, note := none, labelName := none }]
      { type := "snooze", targetRef := "EMAIL-002", content := none,
        forwardTo := none, note := none, labelName := none }
      [] (by decide) (by decide)).trans (by decide)

/-- The `note` payload of a forward command (`none` for other kinds). -/
def commandNote (c : Command) : Option String :=
  match c.kind with
  | .forward _ n => n
  | _ => none

/-- C4 (counterexample): a forward command with `note` missing transforms
successfully, but its note stays absent — it is not defaulted to the empty
string as the claim states for every optional field. -/
theorem transform_note_not_defaulted_cex :
    transformCommands
        [{ type := "forward", targetRef := "EMAIL-002", content := none,
           forwardTo := some "john@example.com", note := none, labelName := none }] =
      Except.ok [{ kind := .forward "john@example.com" none, targetRef := "EMAIL-002",
                   targetGmailId := none }] ∧
    commandNote { kind := .forward "john@example.com" none, targetRef := "EMAIL-002",
                  targetGmailId := none } ≠ some "" := by
  constructor <;> decide

lemma mapSet_fresh (m : List (String × String)) (k v : String)
    (h : mapHasKey m k = false) : mapSet m k v = m ++ [(k, v)] := by
  simp [mapSet, h]

lemma foldl_mapSet_fresh :
    ∀ (l acc : List (String × String)), (l.map Prod.fst).Nodup →
      (∀ p ∈ l, mapHasKey acc p.1 = false) →
      l.foldl (fun m p => mapSet m p.1 p.2) acc = acc ++ l := by
  intro l
  induction l with
  | nil =>
    intro acc _ _
    simp
  | cons p rest ih =>
    intro acc hnd hfresh
    have hn1 : p.1 ∉ rest.map Prod.fst := (List.nodup_cons.mp (by simpa using hnd)).1
    have hnd2 : (rest.map Prod.fst).Nodup := (List.nodup_cons.mp (by simpa using hnd)).2
    have hfp := hfresh p (List.mem_cons_self p rest)
    rw [List.foldl_cons, mapSet_fresh acc p.1 p.2 hfp]
    have hfresh2 : ∀ q ∈ rest, mapHasKey (acc ++ [(p.1, p.2)]) q.1 = false := by
      intro q hq
      have h1 := hfresh q (List.mem_cons_of_mem p hq)
      have hne : p.1 ≠ q.1 := by
        intro hqp
        exact hn1 (hqp ▸ List.mem_map_of_mem Prod.fst hq)
      simp only [mapHasKey, List.any_append, List.any_cons, List.any_nil,
        Bool.or_false, Bool.or_eq_false_iff]
      refine ⟨h1, ?_⟩
      simpa [beq_iff_eq] using hne
    rw [ih (acc ++ [(p.1, p.2)]) hnd2 hfresh2, List.append_assoc]
    rfl

/-- C7 (confirmed): for a non-empty fetched batch of N messages (whose
reference tokens are pairwise distinct, as `generateReferenceId_injective`
guarantees for position-assigned tokens), the Summary's mapping is exactly
one entry per message, keyed by that message's reference token — independent
of how many items the model's response surfaces. -/
theorem summary_mapping_complete (emails : List Email) (response : SummaryResponse)
    (uid : String) (now : Int) (hne : emails ≠ [])
    (hnodup : (emails.map Email.referenceId).Nodup) :
    (createSummary emails response uid now).emailMappings =
      emails.map (fun e => (e.referenceId, e.id)) ∧
    (createSummary emails response uid now).emailMappings.length = emails.length := by
  have _hne := hne
  have hmain : (createSummary emails response uid now).emailMappings =
      emails.map (fun e => (e.referenceId, e.id)) := by
    show emails.foldl (fun m e => mapSet m e.referenceId e.id) [] = _
    have hfold : emails.foldl (fun m e => mapSet m e.referenceId e.id) [] =
        (emails.map (fun e => (e.referenceId, e.id))).foldl
          (fun m p => mapSet m p.1 p.2) [] := by
      rw [List.foldl_map]
    rw [hfold]
    refine foldl_mapSet_fresh _ [] ?_ (fun p _ => rfl)
    simpa [List.map_map, Function.comp] using hnodup
  exact ⟨hmain, by rw [hmain]; simp⟩

/-- First fixture message of the summary-mapping witness batch. -/
def wEmailA : Email :=
  { stockEmail with id := "g1", referenceId := "EMAIL-001", subject := "S1" }

/-- Second fixture message of the summary-mapping witness batch. -/
def wEmailB : Email :=
  { stockEmail with
      id := "g2", referenceId := "EMAIL-002", subject := "S2", isUnread := false }

/-- A model response that surfaces only one of the two messages. -/
def wResponse : SummaryResponse :=
  { executiveSummary := "Two messages, one needs action."
    actionItems := [{ referenceId := "EMAIL-001", priority := .high,
                      description := "d", suggestedAction := "a" }]
    informational := [] }

/-- Witness for C7 at a concrete two-message batch with a one-item response. -/
theorem summary_mapping_complete_witness :
    (createSummary [wEmailA, wEmailB] wResponse "uid-1" 200).emailMappings =
      [("EMAIL-001", "g1"), ("EMAIL-002", "g2")] ∧
    (createSummary [wEmailA, wEmailB] wResponse "uid-1" 200).emailMappings.length = 2 := by
  have h := summary_mapping_complete [wEmailA, wEmailB] wResponse "uid-1" 200
    (by decide) (by decide)
  exact ⟨h.1.trans (by decide), h.2.trans (by decide)⟩

/-- C8 (confirmed): storing a Summary and loading it back yields the same
mapping (a JS Map's keys are pairwise distinct, which is the `hkeys`
hypothesis), and the optional `threadId`/`messageId` round-trip as absent
when not supplied and unchanged when supplied. -/
theorem storedSummary_roundtrip (s : Summary) (t m : Option String)
    (hkeys : (s.emailMappings.map Prod.fst).Nodup) :
    loadStoredSummary (summaryToStorable s t m) =
      { emailMappings := s.emailMappings, threadId := t, messageId := m } := by
  have hid : insertEntries s.emailMappings = s.emailMappings := by
    unfold insertEntries
    rw [foldl_mapSet_fresh s.emailMappings [] hkeys (fun p _ => rfl)]
    simp
  simp [loadStoredSummary, summaryToStorable, hid]

/-- A concrete summary for the round-trip witness. -/
def wSummary : Summary :=
  { id := "uid-2"
    generatedAt := 1735689600000
    periodStart := 1735603200000
    periodEnd := 1735689600000
    totalEmails := 2
    unreadCount := 1
    executiveSummary := "x"
    actionItems := []
    informational := []
    emailMappings := [("EMAIL-001", "g1"), ("EMAIL-002", "g2")] }

/-- Witness for C8: round-trip of a concrete summary with a supplied threadId
and an absent messageId. -/
theorem storedSummary_roundtrip_witness :
    loadStoredSummary (summaryToStorable wSummary (some "thread-9") none) =
      { emailMappings := [("EMAIL-001", "g1"), ("EMAIL-002", "g2")],
        threadId := some "thread-9", messageId := none } :=
  (storedSummary_roundtrip wSummary (some "thread-9") none (by decide)).trans (by decide)

/-- A reply the intake loop passes over without aborting: no (truthy) id,
only-whitespace extracted content, or a successful parse. -/
def replyProceeds (contentOf : String → String)
    (jsonO : String → Except String ParseResponse) (x : GMessage) : Prop :=
  x.id = none ∨ x.id = some "" ∨
    (∃ rid, x.id = some rid ∧ jsTrim (contentOf rid) = "") ∨
    (∃ rid out, x.id = some rid ∧ parseCommands jsonO (contentOf rid) = Except.ok out)

/-- A reply whose language-model JSON extraction fails (after passing the id
and non-empty-content checks), throwing `e` out of the intake loop. -/
def replyAborts (contentOf : String → String)
    (jsonO : String → Except String ParseResponse) (x : GMessage) (e : String) : Prop :=
  ∃ rid, x.id = some rid ∧ rid ≠ "" ∧ jsTrim (contentOf rid) ≠ "" ∧
    parseCommands jsonO (contentOf rid) = Except.error e

lemma processRepliesLoop_aborts (dryRun : Bool) (gw : Gateway)
    (mappings : List (String × String)) (contentOf : String → String)
    (jsonO : String → Except String ParseResponse) (r : GMessage) (e : String)
    (rest : List GMessage) (habort : replyAborts contentOf jsonO r e) :
    ∀ (rs1 : List GMessage) (acc : List CommandResult),
      (∀ x ∈ rs1, replyProceeds contentOf jsonO x) →
      processRepliesLoop dryRun gw mappings contentOf jsonO (rs1 ++ r :: rest) acc =
        Except.error e := by
  obtain ⟨rid, hid, hrid, htrim, hparse⟩ := habort
  intro rs1
  induction rs1 with
  | nil =>
    intro acc _
    simp only [List.nil_append]
    simp [processRepliesLoop, hid, hrid, htrim, hparse]
  | cons x rs ih =>
    intro acc hall
    have hx := hall x (List.mem_cons_self x rs)
    have hrest : ∀ y ∈ rs, replyProceeds contentOf jsonO y :=
      fun y hy => hall y (List.mem_cons_of_mem x hy)
    rcases hx with h1 | h2 | ⟨rid2, hid2, htrim2⟩ | ⟨rid2, out, hid2, hok⟩
    · simp only [List.cons_append]
      simp [processRepliesLoop, h1]
      exact ih acc hrest
    · simp only [List.cons_append]
      simp [processRepliesLoop, h2]
      exact ih acc hrest
    · simp only [List.cons_append]
      by_cases hempty : rid2 = ""
      · simp [processRepliesLoop, hid2, hempty]
        exact ih acc hrest
      · simp [processRepliesLoop, hid2, hempty, htrim2]
        exact ih acc hrest
    · simp only [List.cons_append]
      by_cases hempty : rid2 = ""
      · simp [processRepliesLoop, hid2, hempty]
        exact ih acc hrest
      · by_cases htr : jsTrim (contentOf rid2) = ""
        · simp [processRepliesLoop, hid2, hempty, htr]
          exact ih acc hrest
        · simp [processRepliesLoop, hid2, hempty, htr, hok]
          exact ih _ hrest

/-- C1 (corrected): replies are NOT isolated — when the intake pass reaches a
reply whose JSON extraction fails (every earlier reply having been skipped or
parsed), the whole pass propagates the error: no Command Result is returned
for any reply, in particular none for the replies after the failing one. -/
theorem parse_failure_aborts_pass (dryRun : Bool) (gw : Gateway)
    (userEmail today : String) (stored : StoredSummary)
    (rs1 : List GMessage) (r : GMessage) (rest : List GMessage)
    (contentOf : String → String) (jsonO : String → Except String ParseResponse)
    (e : String)
    (hok : ∀ x ∈ rs1, replyProceeds contentOf jsonO x)
    (habort : replyAborts contentOf jsonO r e) :
    processReplyCommands dryRun gw userEmail today (some stored)
        (rs1 ++ r :: rest) contentOf jsonO =
      Except.error e := by
  have hloop := processRepliesLoop_aborts dryRun gw
    (loadStoredSummary stored).emailMappings contentOf jsonO r e rest habort rs1 [] hok
  have hlen : ¬((rs1 ++ r :: rest).length = 0) := by simp
  simp [processReplyCommands, hlen, hloop]

/-- Stored summary fixture for the C1 run. -/
def storedOne : StoredSummary :=
  { id := "sum-1"
    generatedAt := "2025-01-01T00:00:00.000Z"
    emailMappings := [("EMAIL-001", "g1")]
    threadId := none
    messageId := none }

/-- Message-content oracle: reply `r1` carries unparseable text, any other
reply carries an archive command. -/
def contentOfTwo : String → String := fun rid =>
  if rid = "r1" then "please do that thing" else "Archive EMAIL-001"

/-- Language-model JSON-extraction oracle: the unparseable text throws the
extraction error, anything else parses to one archive command. -/
def jsonOTwo : String → Except String ParseResponse := fun s =>
  if s = "please do that thing" then
    Except.error "Failed to parse JSON from Claude response"
  else
    Except.ok { commands := [{ type := "archive", targetRef := "EMAIL-001",
                               content := none, forwardTo := none, note := none,
                               labelName := none }]
                unrecognized := [] }

/-- C1 (counterexample): with two discovered replies where the first reply's
JSON extraction fails and the second would parse to an archive command, the
pass returns the extraction error and produces no Command Result at all for
the second reply, contradicting per-reply isolation. -/
theorem parse_failure_not_isolated_cex :
    processReplyCommands false okGateway "me@example.com" "January 1, 2025"
        (some storedOne) [{ id := some "r1" }, { id := some "r2" }]
        contentOfTwo jsonOTwo =
      Except.error "Failed to parse JSON from Claude response" := by
  decide

/-- Witness for C1 (corrected) at a concrete three-reply run: an id-less
reply is skipped, then the failing reply aborts the pass before the third
reply is reached. -/
theorem parse_failure_aborts_pass_witness :
    processReplyCommands false okGateway "me@example.com" "January 2, 2025"
        (some storedOne) [{ id := none }, { id := some "r1" }, { id := some "r2" }]
        contentOfTwo jsonOTwo =
      Except.error "Failed to parse JSON from Claude response" := by
  refine parse_failure_aborts_pass false okGateway "me@example.com" "January 2, 2025"
    storedOne [{ id := none }] { id := some "r1" } [{ id := some "r2" }]
    contentOfTwo jsonOTwo "Failed to parse JSON from Claude response" ?_ ?_
  · intro x hx
    rw [List.mem_singleton.mp hx]
    exact Or.inl rfl
  · exact ⟨"r1", rfl, by decide, by decide, by decide⟩

end Agent
